import Mathlib

/-!
Shallow embedding of src/src/components/StatusMonitor.tsx.

The component keeps three pieces of React state (apiTweets, loadingTimeline,
useFallback), an async fetchTimeline routine around the remote getTimeline
provider, and two derived views: displayItems / isShowingHistory for the
timeline panel, and successCount / progress for the progress panel.
-/

namespace StatusMonitor

/-- Remote feed item, type Tweet from services/api. -/
structure Tweet where
  id : String
  text : String
  createdAt : String
deriving DecidableEq, Repr

/-- History item, type PostHistoryItem from HistoryGrid. -/
structure PostHistoryItem where
  id : String
  text : String
  timestamp : String
  postUrl : String
deriving DecidableEq, Repr

/-- Status of one publish group. -/
inductive GroupStatus
  | pending
  | posting
  | success
  | failed
deriving DecidableEq, Repr

/-- PostGroup, as exported by StatusMonitor.tsx. -/
structure PostGroup where
  id : String
  images : List String
  status : GroupStatus
  error : Option String
  retryCount : Nat
deriving DecidableEq, Repr

/-- The uniform record built by the displayItems expression. -/
structure DisplayItem where
  id : String
  text : String
  createdAt : String
  source : String
  url : String
deriving DecidableEq, Repr

/-- Log severity; the catch branch logs with console.warn. -/
inductive Severity
  | warning
  | error
deriving DecidableEq, Repr

/-- One diagnostic log record. -/
structure LogEntry where
  severity : Severity
  message : String
deriving DecidableEq, Repr

/-- The three useState cells of the component. -/
structure MonitorState where
  apiTweets : List Tweet
  loadingTimeline : Bool
  useFallback : Bool
deriving DecidableEq, Repr

/-- Initial state: useState of empty list, false, false. -/
def initState : MonitorState :=
  { apiTweets := [], loadingTimeline := false, useFallback := false }

/-- Outcome of one awaited getTimeline call: it resolves with a list of
tweets or rejects with an error message. -/
inductive FetchOutcome
  | success (tweets : List Tweet)
  | failure (msg : String)
deriving DecidableEq, Repr

/-- The synchronous prefix of fetchTimeline, before the await:
setLoadingTimeline of true, setUseFallback of false. -/
def fetchStart (s : MonitorState) : MonitorState :=
  { s with loadingTimeline := true, useFallback := false }

/-- The record written by console.warn in the catch branch. -/
def timelineWarn (msg : String) : LogEntry :=
  { severity := Severity.warning,
    message := "Timeline API failed, falling back to history: " ++ msg }

/-- The continuation of fetchTimeline after the await resolves: the
try branch (nonempty: setApiTweets and setUseFallback false; empty:
setApiTweets only), the catch branch (console.warn and setUseFallback true),
and the finally branch (setLoadingTimeline false) applied in each case. -/
def applyResolution : FetchOutcome → MonitorState →
    MonitorState × List LogEntry
  | .success tweets, s =>
      if tweets.length > 0 then
        ({ s with apiTweets := tweets, useFallback := false,
                  loadingTimeline := false }, [])
      else
        ({ s with apiTweets := tweets, loadingTimeline := false }, [])
  | .failure msg, s =>
      ({ s with useFallback := true, loadingTimeline := false },
       [timelineWarn msg])

/-- The component state after the nonempty-success branch of the try block
and the finally block have run on state s. -/
def resolvedState (ts : List Tweet) (s : MonitorState) : MonitorState :=
  { s with apiTweets := ts, useFallback := false, loadingTimeline := false }

/-- One full non-overlapping run of fetchTimeline: the synchronous prefix
followed by the resolution of the single awaited call. -/
def fetchTimeline (o : FetchOutcome) (s : MonitorState) :
    MonitorState × List LogEntry :=
  applyResolution o (fetchStart s)

/-- Mapping of a history record in the fallback branch of displayItems:
timestamp becomes createdAt and postUrl is copied into url. -/
def histToDisplay (h : PostHistoryItem) : DisplayItem :=
  { id := h.id, text := h.text, createdAt := h.timestamp,
    source := "history", url := h.postUrl }

/-- Mapping of a tweet in the api branch of displayItems: createdAt copied,
url built from the tweet id. -/
def tweetToDisplay (t : Tweet) : DisplayItem :=
  { id := t.id, text := t.text, createdAt := t.createdAt,
    source := "api", url := "https://twitter.com/i/web/status/" ++ t.id }

/-- The displayItems expression of the component: history slice of 5 when
useFallback holds or apiTweets is empty, otherwise all of apiTweets. -/
def displayItems (useFallback : Bool) (apiTweets : List Tweet)
    (history : List PostHistoryItem) : List DisplayItem :=
  if useFallback || apiTweets.length == 0 then
    (history.take 5).map histToDisplay
  else
    apiTweets.map tweetToDisplay

/-- The isShowingHistory expression of the component. -/
def isShowingHistory (useFallback : Bool) (apiTweets : List Tweet) : Bool :=
  useFallback || apiTweets.length == 0

/-- successCount: groups filtered on status success, then length. -/
def successCount (groups : List PostGroup) : Nat :=
  (groups.filter (fun g => g.status == GroupStatus.success)).length

/-- progress: Math.round of successCount over Math.max of length and 1,
times 100, in exact rational arithmetic. -/
def progress (groups : List PostGroup) : ℤ :=
  round (((successCount groups : ℚ) / ((max groups.length 1 : ℕ) : ℚ)) * 100)

/-- disabled attribute of the refresh button. -/
def refreshDisabled (s : MonitorState) : Bool :=
  s.loadingTimeline

/-- The two branches of the progress panel: the awaiting placeholder when the
group list is empty, else the bar with its percent and the per-group rows. -/
inductive ProgressView
  | awaiting
  | progressBar (percent : ℤ) (rows : List PostGroup)
deriving DecidableEq, Repr

/-- The render decision of the progress panel: groups.length of 0 selects
the awaiting placeholder, otherwise the bar and rows. -/
def renderProgress (groups : List PostGroup) : ProgressView :=
  if groups.length == 0 then ProgressView.awaiting
  else ProgressView.progressBar (progress groups) groups

/-- Whole-system state for interleaved runs: the component state, the list
of in-flight getTimeline calls by request index, the next index, and the
accumulated log. -/
structure SysState where
  monitor : MonitorState
  pending : List Nat
  nextId : Nat
  log : List LogEntry
deriving DecidableEq, Repr

/-- System state before any trigger. -/
def initSys : SysState :=
  { monitor := initState, pending := [], nextId := 0, log := [] }

/-- An event of an interleaved run: a trigger of fetchTimeline (mount
effect, isPosting change, or the refresh button), or the arrival of the
response of in-flight request i. -/
inductive Event
  | trigger
  | respond (i : Nat) (o : FetchOutcome)
deriving DecidableEq, Repr

/-- One event step. A trigger runs the synchronous prefix of fetchTimeline
and registers a new in-flight request; fetchTimeline itself has no guard on
loadingTimeline, so a trigger while loading starts a second request. A
response of a still-pending request runs the continuation on the current
state; the code compares no sequence token, so every response is applied. -/
def sysStep (s : SysState) : Event → SysState
  | .trigger =>
      { s with monitor := fetchStart s.monitor,
               pending := s.pending ++ [s.nextId],
               nextId := s.nextId + 1 }
  | .respond i o =>
      if i ∈ s.pending then
        let r := applyResolution o s.monitor
        { s with monitor := r.1,
                 pending := s.pending.erase i,
                 log := s.log ++ r.2 }
      else s

/-- Run of a list of events. -/
def sysRun (s : SysState) (es : List Event) : SysState :=
  es.foldl sysStep s

/-- Concrete tweet returned by the first fetch in the race traces. -/
def tweetA : Tweet :=
  { id := "1001", text := "first trigger", createdAt := "2024-01-01" }

/-- Concrete tweet returned by the second fetch in the race traces. -/
def tweetB : Tweet :=
  { id := "1002", text := "second trigger", createdAt := "2024-01-02" }

/-- Six concrete tweets, more than the display cap of 5. -/
def sixTweets : List Tweet :=
  [ { id := "1", text := "t1", createdAt := "c1" },
    { id := "2", text := "t2", createdAt := "c2" },
    { id := "3", text := "t3", createdAt := "c3" },
    { id := "4", text := "t4", createdAt := "c4" },
    { id := "5", text := "t5", createdAt := "c5" },
    { id := "6", text := "t6", createdAt := "c6" } ]

/-- Three concrete tweets for the remote-success witness. -/
def threeTweets : List Tweet :=
  [ { id := "11", text := "w1", createdAt := "d1" },
    { id := "12", text := "w2", createdAt := "d2" },
    { id := "13", text := "w3", createdAt := "d3" } ]

/-- A concrete group with status success. -/
def groupOk : PostGroup :=
  { id := "g1", images := ["i1"], status := GroupStatus.success,
    error := none, retryCount := 0 }

/-- A concrete group with status failed. -/
def groupBad : PostGroup :=
  { id := "g2", images := ["i2", "i3"], status := GroupStatus.failed,
    error := some "boom", retryCount := 1 }

/-- A concrete history record. -/
def histOne : PostHistoryItem :=
  { id := "h1", text := "old post", timestamp := "2023-12-31",
    postUrl := "https://twitter.com/i/web/status/900" }

/-- A concrete provider error message. -/
def rateLimited : String :=
  "Request failed with status code 429"

/-- Helper: a successful resolution stores the returned tweets and clears
loading in both the nonempty and the empty branch. -/
theorem applyResolution_success_fields (ts : List Tweet) (s : MonitorState) :
    (applyResolution (FetchOutcome.success ts) s).1.apiTweets = ts ∧
    (applyResolution (FetchOutcome.success ts) s).1.loadingTimeline = false := by
  simp only [applyResolution]
  split <;> exact ⟨rfl, rfl⟩

/-- Helper: a successful resolution with at least one tweet takes the
nonempty branch, which also clears useFallback and logs nothing. -/
theorem applyResolution_success_pos (ts : List Tweet) (s : MonitorState)
    (h : ts.length > 0) :
    applyResolution (FetchOutcome.success ts) s =
      (resolvedState ts s, []) := by
  simp only [applyResolution]
  rw [if_pos h]
  rfl

/-- C1: with two overlapping fetchTimeline runs, the code applies every
arriving response with no sequence token, so in the trace where the first
trigger resolves after the second trigger, the stale first response
overwrites the newer one and determines the final apiTweets. -/
theorem staleResponseOverwrites :
    (sysRun initSys
      [Event.trigger, Event.trigger,
       Event.respond 1 (FetchOutcome.success [tweetB]),
       Event.respond 0 (FetchOutcome.success [tweetA])]).monitor.apiTweets
      = [tweetA] ∧ [tweetA] ≠ [tweetB] := by
  decide

/-- C2: the api branch of displayItems maps apiTweets with no slice, so a
remote result of 6 items surfaces all 6 display items, not at most 5. -/
theorem remoteItemsUncapped :
    isShowingHistory false sixTweets = false ∧
    (displayItems false sixTweets []).length = 6 := by
  decide

/-- C3: a successful fetch resolving with zero items leaves useFallback
false but apiTweets empty, so isShowingHistory is true and displayItems is
the first 5 history records under the timestamp and postUrl mapping, and
loading is cleared. -/
theorem emptySuccessFallsBackToHistory (s : MonitorState)
    (history : List PostHistoryItem) :
    isShowingHistory ((fetchTimeline (.success []) s).1).useFallback
        ((fetchTimeline (.success []) s).1).apiTweets = true ∧
    displayItems ((fetchTimeline (.success []) s).1).useFallback
        ((fetchTimeline (.success []) s).1).apiTweets history
      = (history.take 5).map histToDisplay ∧
    ((fetchTimeline (.success []) s).1).loadingTimeline = false :=
  ⟨rfl, rfl, rfl⟩

/-- C4: a rejected fetch is absorbed by the catch branch: isShowingHistory
becomes true, every log record it emits is at warning severity, and for
every outcome the finally branch clears loadingTimeline. -/
theorem failureAbsorbedIntoHistory (s : MonitorState) (msg : String)
    (o : FetchOutcome) :
    isShowingHistory ((fetchTimeline (.failure msg) s).1).useFallback
        ((fetchTimeline (.failure msg) s).1).apiTweets = true ∧
    (∀ e ∈ (fetchTimeline (.failure msg) s).2,
      e.severity = Severity.warning) ∧
    ((fetchTimeline o s).1).loadingTimeline = false := by
  refine ⟨rfl, ?_, ?_⟩
  · intro e he
    have h1 : e ∈ [timelineWarn msg] := he
    rw [List.mem_singleton] at h1
    rw [h1]
    rfl
  · cases o with
    | success ts => exact (applyResolution_success_fields ts (fetchStart s)).2
    | failure m => rfl

/-- C7: the fetchTimeline routine itself has no guard on loadingTimeline:
while the refresh button is disabled during loading, a second trigger in
the loading phase still starts a second in-flight request. -/
theorem reentrantTriggerStartsSecondFetch :
    refreshDisabled (sysRun initSys [Event.trigger]).monitor = true ∧
    (sysRun initSys [Event.trigger]).monitor.loadingTimeline = true ∧
    (sysRun initSys [Event.trigger, Event.trigger]).pending.length = 2 := by
  decide

/-- C9: the catch branch of fetchTimeline only sets useFallback and the
finally branch clears loading; apiTweets is untouched, so remote items
stored by an earlier successful fetch survive a later failed fetch. -/
theorem failureLeavesApiTweets (s : MonitorState) (ts : List Tweet)
    (msg msg2 : String) :
    ((fetchTimeline (.failure msg) s).1).apiTweets = s.apiTweets ∧
    ((fetchTimeline (.failure msg) s).1).useFallback = true ∧
    ((fetchTimeline (.failure msg) s).1).loadingTimeline = false ∧
    ((fetchTimeline (.failure msg2)
        ((fetchTimeline (.success ts) s).1)).1).apiTweets = ts := by
  refine ⟨rfl, rfl, rfl, ?_⟩
  exact (applyResolution_success_fields ts (fetchStart s)).1

/-- C5: progress is Math.round of successCount over max of total and 1,
times 100; it is an integer between 0 and 100, equals 0 on the empty group
list, and equals the plain round of successCount over total times 100 when
total is positive. -/
theorem progressFormula (groups : List PostGroup) :
    0 ≤ progress groups ∧ progress groups ≤ 100 ∧
    progress groups =
      round (((successCount groups : ℚ) /
        ((max groups.length 1 : ℕ) : ℚ)) * 100) ∧
    (groups.length = 0 → progress groups = 0) ∧
    (0 < groups.length →
      progress groups =
        round (((successCount groups : ℚ) /
          ((groups.length : ℕ) : ℚ)) * 100)) := by
  have hsc : successCount groups ≤ groups.length :=
    List.length_filter_le _ _
  have hd0 : (0:ℚ) < ((max groups.length 1 : ℕ) : ℚ) := by
    exact_mod_cast lt_of_lt_of_le Nat.zero_lt_one
      (le_max_right groups.length 1)
  have hq1 : ((successCount groups : ℚ) /
      ((max groups.length 1 : ℕ) : ℚ)) ≤ 1 := by
    rw [div_le_one hd0]
    exact_mod_cast le_trans hsc (le_max_left groups.length 1)
  have hq0 : (0:ℚ) ≤ ((successCount groups : ℚ) /
      ((max groups.length 1 : ℕ) : ℚ)) := by positivity
  refine ⟨?_, ?_, rfl, ?_, ?_⟩
  · unfold progress
    rw [round_eq]
    refine Int.le_floor.mpr ?_
    have hc : (((0:ℤ)) : ℚ) = 0 := by norm_num
    rw [hc]
    nlinarith [hq0]
  · unfold progress
    rw [round_eq]
    have h101 : ⌊((successCount groups : ℚ) /
        ((max groups.length 1 : ℕ) : ℚ)) * 100 + 1/2⌋ < 101 := by
      refine Int.floor_lt.mpr ?_
      have hc : (((101:ℤ)) : ℚ) = 101 := by norm_num
      rw [hc]
      nlinarith [hq1]
    omega
  · intro h
    have hnil : groups = [] := List.length_eq_zero.mp h
    subst hnil
    norm_num [progress, successCount, round_eq]
  · intro h
    have hmax : max groups.length 1 = groups.length := max_eq_left h
    unfold progress
    rw [hmax]

/-- C5 witness: the theorem applied to one success among three groups,
yielding the plain formula for a positive total. -/
theorem progressFormulaWitness :
    0 < ([groupOk, groupBad, groupBad] : List PostGroup).length ∧
    progress [groupOk, groupBad, groupBad] =
      round (((successCount [groupOk, groupBad, groupBad] : ℚ) /
        ((([groupOk, groupBad, groupBad] : List PostGroup).length : ℕ) :
          ℚ)) * 100) :=
  ⟨by decide,
   (progressFormula [groupOk, groupBad, groupBad]).2.2.2.2 (by decide)⟩

/-- C6: a successful fetch with at least one tweet switches the display to
the api source: isShowingHistory is false, displayItems is exactly the
returned tweets mapped with no re-slicing, its length is the number of
returned tweets, and each display item carries source api and a url built
from its id by the status permalink scheme. -/
theorem remoteSuccessShowsAllTweets (s : MonitorState)
    (history : List PostHistoryItem) (ts : List Tweet) (h : ts ≠ []) :
    isShowingHistory ((fetchTimeline (.success ts) s).1).useFallback
        ((fetchTimeline (.success ts) s).1).apiTweets = false ∧
    displayItems ((fetchTimeline (.success ts) s).1).useFallback
        ((fetchTimeline (.success ts) s).1).apiTweets history
      = ts.map tweetToDisplay ∧
    (displayItems ((fetchTimeline (.success ts) s).1).useFallback
        ((fetchTimeline (.success ts) s).1).apiTweets history).length
      = ts.length ∧
    ∀ d ∈ displayItems ((fetchTimeline (.success ts) s).1).useFallback
        ((fetchTimeline (.success ts) s).1).apiTweets history,
      d.source = "api" ∧
      d.url = "https://twitter.com/i/web/status/" ++ d.id := by
  have hpos : ts.length > 0 := List.length_pos.mpr h
  have hn : ts.length ≠ 0 := Nat.pos_iff_ne_zero.mp hpos
  have hs : fetchTimeline (FetchOutcome.success ts) s =
      (resolvedState ts (fetchStart s), []) :=
    applyResolution_success_pos ts (fetchStart s) hpos
  rw [hs]
  refine ⟨?_, ?_, ?_, ?_⟩
  · simp [resolvedState, isShowingHistory, hn]
  · simp [resolvedState, displayItems, hn]
  · simp [resolvedState, displayItems, hn]
  · intro d hd
    simp [resolvedState, displayItems, hn] at hd
    obtain ⟨t, ht, rfl⟩ := hd
    exact ⟨rfl, rfl⟩

/-- C6 witness: the theorem applied to a concrete fetch of three tweets
from the initial state with an empty history log. -/
theorem remoteSuccessWitness :
    threeTweets ≠ [] ∧
    (isShowingHistory
        ((fetchTimeline (.success threeTweets) initState).1).useFallback
        ((fetchTimeline (.success threeTweets) initState).1).apiTweets
      = false ∧
    displayItems
        ((fetchTimeline (.success threeTweets) initState).1).useFallback
        ((fetchTimeline (.success threeTweets) initState).1).apiTweets []
      = threeTweets.map tweetToDisplay ∧
    (displayItems
        ((fetchTimeline (.success threeTweets) initState).1).useFallback
        ((fetchTimeline (.success threeTweets) initState).1).apiTweets
        []).length
      = threeTweets.length ∧
    ∀ d ∈ displayItems
        ((fetchTimeline (.success threeTweets) initState).1).useFallback
        ((fetchTimeline (.success threeTweets) initState).1).apiTweets [],
      d.source = "api" ∧
      d.url = "https://twitter.com/i/web/status/" ++ d.id) :=
  ⟨by decide,
   remoteSuccessShowsAllTweets initState [] threeTweets (by decide)⟩

/-- C8: the progress panel renders the awaiting placeholder exactly when
the group list is empty, and renders the bar with its rows whenever the
group list is nonempty. -/
theorem emptyGroupsAwaiting (groups : List PostGroup) :
    (renderProgress groups = ProgressView.awaiting ↔ groups = []) ∧
    (groups ≠ [] →
      renderProgress groups
        = ProgressView.progressBar (progress groups) groups) := by
  cases groups with
  | nil => exact ⟨⟨fun _ => rfl, fun _ => rfl⟩, fun h => absurd rfl h⟩
  | cons g gs =>
      refine ⟨⟨fun h1 => ?_, fun h1 => ?_⟩, fun _ => rfl⟩
      · exact absurd h1 (by simp [renderProgress])
      · exact absurd h1 (by simp)

/-- C8 witness: the theorem applied to a singleton group list, selecting
the bar branch. -/
theorem emptyGroupsAwaitingWitness :
    renderProgress [groupOk]
      = ProgressView.progressBar (progress [groupOk]) [groupOk] :=
  (emptyGroupsAwaiting [groupOk]).2 (by decide)

/-- C10: fetchTimeline clears useFallback in its synchronous prefix, so
after a failed fetch set the fallback flag, a later fetch that succeeds
with at least one tweet shows the api source again and rebuilds
displayItems from the new tweets. -/
theorem refetchClearsFallback (s : MonitorState)
    (history : List PostHistoryItem) (ts : List Tweet) (msg : String)
    (h : ts ≠ []) :
    (fetchStart s).useFallback = false ∧
    ((fetchTimeline (.failure msg) s).1).useFallback = true ∧
    isShowingHistory
        ((fetchTimeline (.success ts)
          ((fetchTimeline (.failure msg) s).1)).1).useFallback
        ((fetchTimeline (.success ts)
          ((fetchTimeline (.failure msg) s).1)).1).apiTweets = false ∧
    displayItems
        ((fetchTimeline (.success ts)
          ((fetchTimeline (.failure msg) s).1)).1).useFallback
        ((fetchTimeline (.success ts)
          ((fetchTimeline (.failure msg) s).1)).1).apiTweets history
      = ts.map tweetToDisplay := by
  have hpos : ts.length > 0 := List.length_pos.mpr h
  have hn : ts.length ≠ 0 := Nat.pos_iff_ne_zero.mp hpos
  have hs : fetchTimeline (FetchOutcome.success ts)
      ((fetchTimeline (FetchOutcome.failure msg) s).1) =
      (resolvedState ts
        (fetchStart ((fetchTimeline (FetchOutcome.failure msg) s).1)), []) :=
    applyResolution_success_pos ts _ hpos
  rw [hs]
  refine ⟨rfl, rfl, ?_, ?_⟩
  · simp [resolvedState, isShowingHistory, hn]
  · simp [resolvedState, displayItems, hn]

/-- C10 witness: the theorem applied to a concrete failure followed by a
successful fetch of one tweet. -/
theorem refetchClearsFallbackWitness :
    [tweetB] ≠ ([] : List Tweet) ∧
    ((fetchStart initState).useFallback = false ∧
    ((fetchTimeline (.failure rateLimited) initState).1).useFallback
      = true ∧
    isShowingHistory
        ((fetchTimeline (.success [tweetB])
          ((fetchTimeline (.failure rateLimited) initState).1)).1).useFallback
        ((fetchTimeline (.success [tweetB])
          ((fetchTimeline (.failure rateLimited) initState).1)).1).apiTweets
      = false ∧
    displayItems
        ((fetchTimeline (.success [tweetB])
          ((fetchTimeline (.failure rateLimited) initState).1)).1).useFallback
        ((fetchTimeline (.success [tweetB])
          ((fetchTimeline (.failure rateLimited) initState).1)).1).apiTweets
        [histOne]
      = [tweetB].map tweetToDisplay) :=
  ⟨by decide,
   refetchClearsFallback initState [histOne] [tweetB] rateLimited
     (by decide)⟩

end StatusMonitor
